import Mathlib

/-
Verification development for the cloud-connector MQTT control-plane message
engine.  The definitions below are a shallow embedding of the Go source in
src/unnamed/part_001 (package mqtt): the connection-status handshake handlers,
the reconnect-message builder, the Kafka-forwarding message handlers and the
Kafka write error handling.  Collaborators (account resolver, connection
registrar, connected-client recorder, sources recorder) are modelled as an
explicit environment of response functions, and every externally visible side
effect is recorded in an effect list.
-/

set_option autoImplicit false

namespace CloudConnector

/-- A decoded JSON value, as produced by Go json.Unmarshal into interface
values: objects become string-keyed maps, strings stay strings, numbers and
booleans keep their kind, null is nil.  Association lists model the Go maps. -/
inductive JValue where
  | str : String → JValue
  | num : Int → JValue
  | bool : Bool → JValue
  | null : JValue
  | obj : List (String × JValue) → JValue
  | arr : List JValue → JValue

/-- Go map indexing m[k] with the comma-ok form: the first binding for the
key, none when the key is absent. -/
def jlookup : List (String × JValue) → String → Option JValue
  | [], _ => none
  | (k, v) :: rest, key => if k == key then some v else jlookup rest key

/-- Go comparison of an interface value against a string literal: true exactly
when the dynamic type is string and the contents are equal. -/
def JValue.isStr (v : JValue) (s : String) : Bool :=
  match v with
  | .str t => t == s
  | _ => false

/-- Key constants from the top of the message handler source file.  Note the
source-ref constant holds the literal "SourceRef". -/
def canonicalFactsKey : String := "canonical_facts"

def dispatchersKey : String := "dispatchers"

def catalogDispatcherKey : String := "catalog"

def catalogApplicationType : String := "ApplicationType"

def catalogSourceName : String := "SrcName"

def catalogSourceRef : String := "SourceRef"

def catalogSourceType : String := "SrcType"

def playbookWorkerDispatcherKey : String := "rhc-worker-playbook"

/-- The inbound control envelope after json.Unmarshal: MessageType, MessageID,
Version, Sent and the polymorphic Content. -/
structure ControlMessage where
  MessageType : String
  MessageID : String
  Version : Int
  Sent : String
  Content : JValue

/-- The tuple handed to the connection registrar.  Dispatchers and
CanonicalFacts come from single-value Go map indexing, so a missing key
yields none (Go nil). -/
structure RhcClient where
  ClientID : String
  Account : String
  Dispatchers : Option JValue
  CanonicalFacts : Option JValue

/-- The configuration fields the handshake handlers read. -/
structure Config where
  MqttControlPublishQoS : Nat
  InvalidHandshakeReconnectDelay : Int

/-- The outbound-control-topic builder, kept abstract: the handlers only call
BuildOutgoingControlTopic on a client id. -/
structure TopicBuilder where
  BuildOutgoingControlTopic : String → String

/-- Content of an outbound command message: a command name and integer
arguments. -/
structure CommandMessageContent where
  Command : String
  Arguments : List (String × Int)

/-- An outbound control envelope as built by buildControlMessage. -/
structure OutControlMessage where
  MessageType : String
  MessageID : String
  Version : Int
  Sent : String
  Content : CommandMessageContent

/-- Mirrors buildControlMessage: the freshly minted message id and timestamp
are passed in (the Go code obtains them from uuid.NewRandom and time.Now). -/
def buildControlMessage (content : CommandMessageContent) (messageID : String)
    (sent : String) : OutControlMessage :=
  { MessageType := "control", MessageID := messageID, Version := 1,
    Sent := sent, Content := content }

/-- Mirrors buildReconnectMessage: a control envelope whose content is the
reconnect command with a delay argument. -/
def buildReconnectMessage (delay : Int) (messageID : String)
    (sent : String) : OutControlMessage :=
  buildControlMessage { Command := "reconnect", Arguments := [("delay", delay)] }
    messageID sent

/-- One externally visible side effect of the handshake handlers: a call into
a collaborator or an MQTT publish. -/
inductive Effect where
  | resolveCall (clientID : String)
  | registerCall (client : RhcClient)
  | unregisterCall (clientID : String)
  | recordCall (identity : String) (client : RhcClient)
  | sourcesCall (identity account clientID sourceRef sourceName sourceType
      applicationType : String)
  | publish (topic : String) (qos : Nat) (message : OutControlMessage)

def Effect.isResolveCall : Effect → Bool
  | .resolveCall _ => true
  | _ => false

def Effect.isRegisterCall : Effect → Bool
  | .registerCall _ => true
  | _ => false

def Effect.isUnregisterCall : Effect → Bool
  | .unregisterCall _ => true
  | _ => false

def Effect.isRecordCall : Effect → Bool
  | .recordCall _ _ => true
  | _ => false

def Effect.isSourcesCall : Effect → Bool
  | .sourcesCall _ _ _ _ _ _ _ => true
  | _ => false

def Effect.isPublish : Effect → Bool
  | .publish _ _ _ => true
  | _ => false

/-- Number of effects in a run satisfying a predicate. -/
def countEffects (effs : List Effect) (p : Effect → Bool) : Nat :=
  (effs.filter p).length

/-- The responses of the pluggable collaborators, plus the fresh message id
and timestamp used for outbound messages.  An Option String error of none
means the Go call returned err == nil. -/
structure CollabEnv where
  MapClientIdToAccountId : String → Except String (String × String)
  Register : RhcClient → Option String
  RecordConnectedClient : String → RhcClient → Option String
  RegisterWithSources : String → String → String → String → String → String →
    String → Option String
  newMessageID : String
  now : String

/-- Result of a handler: the Go error value (ok for nil), or a run that ends
in a runtime panic from a failed type assertion. -/
inductive HResult where
  | ok : HResult
  | err : String → HResult
  | panicked : String → HResult
deriving DecidableEq

def HResult.isPanicked : HResult → Bool
  | .panicked _ => true
  | _ => false

/-- A value computed by Go code that contains type assertions: either the
value, or the panic raised by a failed assertion. -/
inductive Asserted (α : Type) where
  | ok : α → Asserted α
  | panicked : String → Asserted α

/-- Mirrors sendReconnectMessageToClient: builds the reconnect control message
and publishes it on the outgoing control topic for the client. -/
def sendReconnectMessageToClient (env : CollabEnv) (topicBuilder : TopicBuilder)
    (qos : Nat) (clientID : String) (delay : Int) : Effect :=
  Effect.publish (topicBuilder.BuildOutgoingControlTopic clientID) qos
    (buildReconnectMessage delay env.newMessageID env.now)

/-- The RhcClient tuple that handleOnlineMessage builds from the handshake
payload: single-value map lookups for dispatchers and canonical facts. -/
def payloadRhcClient (clientID account : String)
    (handshakePayload : List (String × JValue)) : RhcClient :=
  { ClientID := clientID, Account := account,
    Dispatchers := jlookup handshakePayload dispatchersKey,
    CanonicalFacts := jlookup handshakePayload canonicalFactsKey }

/-- Mirrors doesHostHaveCanonicalFacts: the canonical_facts key is present. -/
def doesHostHaveCanonicalFacts (handshakePayload : List (String × JValue)) : Bool :=
  (jlookup handshakePayload canonicalFactsKey).isSome

/-- Mirrors doesHostHavePlaybookWorker: absent dispatchers means false; a
present dispatchers value is type-asserted to a string-keyed map and then
probed for the playbook worker key. -/
def doesHostHavePlaybookWorker (handshakePayload : List (String × JValue)) :
    Asserted Bool :=
  match jlookup handshakePayload dispatchersKey with
  | none => .ok false
  | some dispatchers =>
    match dispatchers with
    | .obj dispatchersMap =>
        .ok (jlookup dispatchersMap playbookWorkerDispatcherKey).isSome
    | _ => .panicked "interface conversion: dispatchers is not a map"

/-- Mirrors shouldHostBeRegisteredWithInventory, with the short-circuit of the
Go conjunction. -/
def shouldHostBeRegisteredWithInventory (handshakePayload : List (String × JValue)) :
    Asserted Bool :=
  if doesHostHaveCanonicalFacts handshakePayload then
    doesHostHavePlaybookWorker handshakePayload
  else
    .ok false

/-- Mirrors processDispatchers: find the dispatchers map and its catalog
entry, require the four catalog fields, and call the sources recorder with
them; a recorder error is only logged.  The type assertions on the
dispatchers map, the catalog map and the four field values can panic. -/
def processDispatchers (env : CollabEnv) (identity account clientId : String)
    (handshakePayload : List (String × JValue)) : Asserted Unit × List Effect :=
  match jlookup handshakePayload dispatchersKey with
  | none => (.ok (), [])
  | some dispatchers =>
    match dispatchers with
    | .obj dispatchersMap =>
      match jlookup dispatchersMap catalogDispatcherKey with
      | none => (.ok (), [])
      | some catalog =>
        match catalog with
        | .obj catalogMap =>
          match jlookup catalogMap catalogApplicationType,
                jlookup catalogMap catalogSourceType,
                jlookup catalogMap catalogSourceRef,
                jlookup catalogMap catalogSourceName with
          | some applicationType, some sourceType, some sourceRef,
            some sourceName =>
            match sourceRef, sourceName, sourceType, applicationType with
            | .str sourceRefS, .str sourceNameS, .str sourceTypeS,
              .str applicationTypeS =>
                -- the recorder error is only logged, never propagated
                let _srcErr := env.RegisterWithSources identity account clientId
                  sourceRefS sourceNameS sourceTypeS applicationTypeS
                (.ok (), [Effect.sourcesCall identity account clientId
                  sourceRefS sourceNameS sourceTypeS applicationTypeS])
            | _, _, _, _ =>
                (.panicked "interface conversion: catalog field is not a string", [])
          | _, _, _, _ => (.ok (), [])
        | _ => (.panicked "interface conversion: catalog is not a map", [])
    | _ => (.panicked "interface conversion: dispatchers is not a map", [])

/-- Mirrors handleOnlineMessage: resolve the account (on error publish a
reconnect and stop), build the RhcClient from the payload, register it (on
error publish a reconnect and stop), record with inventory when the gate
holds (on error publish a reconnect and stop), then process dispatchers. -/
def handleOnlineMessage (env : CollabEnv) (clientID : String)
    (msg : ControlMessage) (cfg : Config) (topicBuilder : TopicBuilder) :
    HResult × List Effect :=
  match env.MapClientIdToAccountId clientID with
  | .error e =>
      (HResult.err e,
       [Effect.resolveCall clientID,
        sendReconnectMessageToClient env topicBuilder cfg.MqttControlPublishQoS
          clientID cfg.InvalidHandshakeReconnectDelay])
  | .ok (identity, account) =>
    match msg.Content with
    | .obj handshakePayload =>
      let rhcClient : RhcClient :=
        { ClientID := clientID, Account := account,
          Dispatchers := jlookup handshakePayload dispatchersKey,
          CanonicalFacts := jlookup handshakePayload canonicalFactsKey }
      match env.Register rhcClient with
      | some e =>
          (HResult.err e,
           [Effect.resolveCall clientID, Effect.registerCall rhcClient,
            sendReconnectMessageToClient env topicBuilder
              cfg.MqttControlPublishQoS clientID
              cfg.InvalidHandshakeReconnectDelay])
      | none =>
        match shouldHostBeRegisteredWithInventory handshakePayload with
        | .panicked m =>
            (HResult.panicked m,
             [Effect.resolveCall clientID, Effect.registerCall rhcClient])
        | .ok true =>
          match env.RecordConnectedClient identity rhcClient with
          | some e =>
              (HResult.err e,
               [Effect.resolveCall clientID, Effect.registerCall rhcClient,
                Effect.recordCall identity rhcClient,
                sendReconnectMessageToClient env topicBuilder
                  cfg.MqttControlPublishQoS clientID
                  cfg.InvalidHandshakeReconnectDelay])
          | none =>
            match processDispatchers env identity account clientID
                handshakePayload with
            | (.ok _, pdEffs) =>
                (HResult.ok,
                 [Effect.resolveCall clientID, Effect.registerCall rhcClient,
                  Effect.recordCall identity rhcClient] ++ pdEffs)
            | (.panicked m, pdEffs) =>
                (HResult.panicked m,
                 [Effect.resolveCall clientID, Effect.registerCall rhcClient,
                  Effect.recordCall identity rhcClient] ++ pdEffs)
        | .ok false =>
          match processDispatchers env identity account clientID
              handshakePayload with
          | (.ok _, pdEffs) =>
              (HResult.ok,
               [Effect.resolveCall clientID, Effect.registerCall rhcClient]
                 ++ pdEffs)
          | (.panicked m, pdEffs) =>
              (HResult.panicked m,
               [Effect.resolveCall clientID, Effect.registerCall rhcClient]
                 ++ pdEffs)
    | _ =>
        (HResult.panicked "interface conversion: content is not a map",
         [Effect.resolveCall clientID])

/-- Mirrors handleOfflineMessage: unregister the client and return nil. -/
def handleOfflineMessage (env : CollabEnv) (clientID : String)
    (msg : ControlMessage) : HResult × List Effect :=
  (HResult.ok, [Effect.unregisterCall clientID])

/-- Mirrors handleConnectionStatusMessage: type-assert the content to a map,
require the state key, and branch on the state comparing the interface value
against the string literals online and offline. -/
def handleConnectionStatusMessage (env : CollabEnv) (clientID : String)
    (msg : ControlMessage) (cfg : Config) (topicBuilder : TopicBuilder) :
    HResult × List Effect :=
  match msg.Content with
  | .obj handshakePayload =>
    match jlookup handshakePayload "state" with
    | none => (HResult.err "Invalid connection state", [])
    | some connectionState =>
      if connectionState.isStr "online" then
        handleOnlineMessage env clientID msg cfg topicBuilder
      else if connectionState.isStr "offline" then
        handleOfflineMessage env clientID msg
      else
        (HResult.err "Invalid connection state", [])
  | _ => (HResult.panicked "interface conversion: content is not a map", [])

/-- Topic classification produced by the topic verifier. -/
inductive TopicType where
  | ControlTopicType
  | DataTopicType
  | UnknownTopicType

/-- The topic verifier, kept abstract: the handlers only call
VerifyIncomingTopic and use the error and the client id. -/
structure TopicVerifier where
  VerifyIncomingTopic : String → Except String (TopicType × String)

/-- An inbound MQTT frame: topic, numeric message id, raw payload bytes. -/
structure MqttMessage where
  topic : String
  messageID : Nat
  payload : List Nat

/-- A Kafka record header. -/
structure KafkaHeader where
  key : String
  value : String

/-- A Kafka record as written by the handler: headers plus raw value bytes. -/
structure KafkaMessage where
  headers : List KafkaHeader
  value : List Nat

/-- Mirrors the frame-level behaviour of ControlMessageHandler from the
Kafka-forwarding version of the handler: verify the topic (drop on error),
drop empty payloads, otherwise write exactly one Kafka record carrying the
original topic and the mqtt message id as headers and the raw payload as the
value. -/
def ControlMessageHandler (topicVerifier : TopicVerifier)
    (message : MqttMessage) : List KafkaMessage :=
  match topicVerifier.VerifyIncomingTopic message.topic with
  | .error _ => []
  | .ok _ =>
    if message.payload.length == 0 then []
    else
      [{ headers := [⟨"topic", message.topic⟩,
                     ⟨"mqtt_message_id", toString message.messageID⟩],
         value := message.payload }]

/-- The error value a Kafka write can produce; canceled marks errors for
which errors.Is(err, context.Canceled) holds. -/
structure KafkaError where
  canceled : Bool

/-- What the write-error branch of the handler did: whether it emitted an
error-level log line, and whether it escalated to logger.Fatal. -/
structure KafkaWriteOutcome where
  errorLogged : Bool
  fatal : Bool
deriving DecidableEq

/-- Mirrors the error handling after kafkaWriter.WriteMessages inside
ControlMessageHandler: on any error, log at error level; if the error is a
context cancellation, return; otherwise escalate with logger.Fatal. -/
def handleKafkaWriteResult (err : Option KafkaError) : KafkaWriteOutcome :=
  match err with
  | none => { errorLogged := false, fatal := false }
  | some e =>
    if e.canceled then { errorLogged := true, fatal := false }
    else { errorLogged := true, fatal := true }

/-- One step of DataMessageHandler: a trace log for empty payloads, and
nothing else; in particular it performs no Kafka write. -/
inductive DataEffect where
  | traceEmptyPayload
  | kafkaWrite (message : KafkaMessage)

def DataEffect.isKafkaWrite : DataEffect → Bool
  | .kafkaWrite _ => true
  | _ => false

/-- Mirrors DataMessageHandler: an empty (or nil) payload is dropped with a
trace log; a non-empty payload falls through the function body, which has no
further statements. -/
def DataMessageHandler (message : MqttMessage) : List DataEffect :=
  if message.payload.length == 0 then [DataEffect.traceEmptyPayload] else []

/-- Number of Kafka writes among the data-handler effects. -/
def countDataWrites (effs : List DataEffect) : Nat :=
  (effs.filter DataEffect.isKafkaWrite).length

/-! Concrete fixtures used by witnesses and counterexamples. -/

/-- Collaborator environment in which every call succeeds. -/
def allOkEnv : CollabEnv :=
  { MapClientIdToAccountId := fun _ => .ok ("identity-1", "account-1"),
    Register := fun _ => none,
    RecordConnectedClient := fun _ _ => none,
    RegisterWithSources := fun _ _ _ _ _ _ _ => none,
    newMessageID := "00000000-0000-0000-0000-000000000001",
    now := "2024-01-01T00:00:00Z" }

/-- Environment in which the inventory recorder fails and all else succeeds. -/
def recordFailEnv : CollabEnv :=
  { allOkEnv with RecordConnectedClient := fun _ _ => some "inventory kafka error" }

/-- Environment in which the sources recorder fails and all else succeeds. -/
def sourcesFailEnv : CollabEnv :=
  { allOkEnv with RegisterWithSources := fun _ _ _ _ _ _ _ => some "sources api error" }

/-- Environment in which the account resolver fails. -/
def resolveFailEnv : CollabEnv :=
  { allOkEnv with MapClientIdToAccountId := fun _ => .error "unknown client" }

def sampleCfg : Config :=
  { MqttControlPublishQoS := 1, InvalidHandshakeReconnectDelay := 30 }

def sampleTopicBuilder : TopicBuilder :=
  { BuildOutgoingControlTopic := fun clientID =>
      "redhat/insights/" ++ clientID ++ "/control/out" }

/-- A connection-status envelope around a given content value. -/
def mkStatusMsg (content : JValue) : ControlMessage :=
  { MessageType := "connection-status", MessageID := "m1", Version := 1,
    Sent := "2024-01-01T00:00:00Z", Content := content }

/-- Online payload with canonical facts and the playbook worker dispatcher. -/
def inventoryOnlinePayload : List (String × JValue) :=
  [("state", .str "online"),
   ("canonical_facts", .obj [("fqdn", .str "h.x")]),
   ("dispatchers", .obj [("rhc-worker-playbook", .obj [])])]

/-- Online payload with a catalog dispatcher using the key spelling from the
specification (SrcRef). -/
def specCatalogPayload : List (String × JValue) :=
  [("state", .str "online"),
   ("canonical_facts", .obj [("fqdn", .str "h.x")]),
   ("dispatchers", .obj
     [("rhc-worker-playbook", .obj []),
      ("catalog", .obj
        [("ApplicationType", .str "A"), ("SrcName", .str "N"),
         ("SrcRef", .str "R"), ("SrcType", .str "T")])])]

/-- Online payload with a catalog dispatcher using the key spelling actually
looked up by the code (SourceRef). -/
def codeCatalogPayload : List (String × JValue) :=
  [("state", .str "online"),
   ("canonical_facts", .obj [("fqdn", .str "h.x")]),
   ("dispatchers", .obj
     [("rhc-worker-playbook", .obj []),
      ("catalog", .obj
        [("ApplicationType", .str "A"), ("SrcName", .str "N"),
         ("SourceRef", .str "R"), ("SrcType", .str "T")])])]

/-- Catalog payload in the code spelling but without canonical facts, so the
inventory gate is false while sources enrollment still happens. -/
def codeCatalogNoFactsPayload : List (String × JValue) :=
  [("state", .str "online"),
   ("dispatchers", .obj
     [("catalog", .obj
        [("ApplicationType", .str "A"), ("SrcName", .str "N"),
         ("SourceRef", .str "R"), ("SrcType", .str "T")])])]

def sampleControlFrame : MqttMessage :=
  { topic := "redhat/insights/abc/control/in", messageID := 7,
    payload := [1, 2, 3] }

def sampleDataFrame : MqttMessage :=
  { topic := "redhat/insights/abc/data/in", messageID := 42,
    payload := [222, 173, 190, 239] }

/-- Topic verifier that accepts every topic for the client abc. -/
def okTopicVerifier : TopicVerifier :=
  { VerifyIncomingTopic := fun _ => .ok (TopicType.DataTopicType, "abc") }

/-! Helper lemmas shared between claims. -/

/-- processDispatchers only ever emits sources-recorder calls: it never
registers, unregisters, records or publishes. -/
theorem processDispatchers_only_sources (env : CollabEnv)
    (identity account clientId : String)
    (handshakePayload : List (String × JValue)) :
    countEffects (processDispatchers env identity account clientId
      handshakePayload).2 Effect.isRegisterCall = 0 ∧
    countEffects (processDispatchers env identity account clientId
      handshakePayload).2 Effect.isUnregisterCall = 0 ∧
    countEffects (processDispatchers env identity account clientId
      handshakePayload).2 Effect.isRecordCall = 0 ∧
    countEffects (processDispatchers env identity account clientId
      handshakePayload).2 Effect.isPublish = 0 := by
  unfold processDispatchers
  repeat' split
  all_goals simp [countEffects, Effect.isRegisterCall, Effect.isUnregisterCall,
    Effect.isRecordCall, Effect.isPublish]

/-! Claim theorems. -/

/-- C2: the spec scenario catalog, whose keys are ApplicationType, SrcName,
SrcRef and SrcType, does not trigger sources enrollment, because the code
looks up the key SourceRef rather than SrcRef; renaming that single key to
SourceRef makes the recorder fire with the four values.  This evaluates the
embedded processDispatchers at the failing input. -/
theorem C2_source_ref_key_mismatch :
    countEffects (processDispatchers allOkEnv "identity-1" "account-1" "abc"
      specCatalogPayload).2 Effect.isSourcesCall = 0 ∧
    (processDispatchers allOkEnv "identity-1" "account-1" "abc"
      codeCatalogPayload).2 =
      [Effect.sourcesCall "identity-1" "account-1" "abc" "R" "N" "T" "A"] := by
  constructor
  · decide
  · rfl

/-- C3 counterexample: an inbound data-topic frame with a non-empty payload
for which the data message handler writes zero Kafka records, refuting the
claim that it writes exactly one. -/
theorem C3_data_frame_writes_nothing :
    sampleDataFrame.payload.length = 4 ∧
    countDataWrites (DataMessageHandler sampleDataFrame) = 0 := by decide

/-- C3 (amended): the data message handler never writes a Kafka record; the
Kafka forwarding lives in the control message handler, which writes exactly
one record per verified non-empty frame, with the raw payload as value and
the original topic and mqtt message id as headers, and zero records for
empty frames. -/
theorem C3_kafka_record_per_frame (topicVerifier : TopicVerifier)
    (message : MqttMessage) :
    (∀ r, topicVerifier.VerifyIncomingTopic message.topic = .ok r →
      (message.payload.length ≠ 0 →
        ControlMessageHandler topicVerifier message =
          [{ headers := [⟨"topic", message.topic⟩,
                         ⟨"mqtt_message_id", toString message.messageID⟩],
             value := message.payload }]) ∧
      (message.payload.length = 0 →
        ControlMessageHandler topicVerifier message = [])) ∧
    countDataWrites (DataMessageHandler message) = 0 := by
  constructor
  · intro r hr
    constructor
    · intro hne
      simp [ControlMessageHandler, hr, hne]
    · intro he
      simp [ControlMessageHandler, hr, he]
  · unfold DataMessageHandler
    split
    · simp [countDataWrites, DataEffect.isKafkaWrite]
    · simp [countDataWrites]

/-- Witness for C3 (amended): on a concrete verified non-empty control frame,
exactly the one expected record is written. -/
theorem C3_kafka_record_per_frame_witness :
    ControlMessageHandler okTopicVerifier sampleControlFrame =
      [{ headers := [⟨"topic", sampleControlFrame.topic⟩,
                     ⟨"mqtt_message_id", toString sampleControlFrame.messageID⟩],
         value := sampleControlFrame.payload }] :=
  ((C3_kafka_record_per_frame okTopicVerifier sampleControlFrame).1
    (TopicType.DataTopicType, "abc") rfl).1 (by decide)

/-- C6 counterexample: a canceled Kafka write error is still logged at error
level before the cancellation check, refuting the part of the claim that says
cancellation returns without logging at error level. -/
theorem C6_canceled_write_still_logs_error :
    (handleKafkaWriteResult (some { canceled := true })).errorLogged = true ∧
    (handleKafkaWriteResult (some { canceled := true })).fatal = false := by
  decide

/-- C6 (amended): a failed Kafka write escalates to a fatal stop exactly when
the error is not a cancellation; a canceled write logs the failure at error
level but returns without escalating, and a successful write neither logs an
error nor escalates. -/
theorem C6_fatal_iff_noncanceled (err : Option KafkaError) :
    (∀ e, err = some e →
      (handleKafkaWriteResult err).fatal = !e.canceled ∧
      (handleKafkaWriteResult err).errorLogged = true) ∧
    (err = none →
      handleKafkaWriteResult err = { errorLogged := false, fatal := false }) := by
  constructor
  · intro e he
    subst he
    cases e with
    | mk c => cases c <;> simp [handleKafkaWriteResult]
  · intro he
    subst he
    rfl

/-- Witness for C6 (amended): a concrete non-canceled write failure is fatal
and logged. -/
theorem C6_fatal_iff_noncanceled_witness :
    (handleKafkaWriteResult (some { canceled := false })).fatal = !false ∧
    (handleKafkaWriteResult (some { canceled := false })).errorLogged = true :=
  (C6_fatal_iff_noncanceled (some { canceled := false })).1
    { canceled := false } rfl

/-- C10: the handlers are total only under an unstated shape precondition:
a connection-status message whose content is a JSON string panics in
handleConnectionStatusMessage; an online payload whose dispatchers value is a
string panics in the inventory gate; a non-map catalog entry panics in
processDispatchers; and a catalog whose SourceRef field is a number panics on
the string assertion — in each case under an environment where every
collaborator succeeds. -/
theorem C10_shape_assertions_panic :
    (handleConnectionStatusMessage allOkEnv "abc" (mkStatusMsg (.str "online"))
      sampleCfg sampleTopicBuilder).1.isPanicked = true ∧
    (handleOnlineMessage allOkEnv "abc"
      (mkStatusMsg (.obj [("state", .str "online"),
        ("canonical_facts", .obj []), ("dispatchers", .str "x")]))
      sampleCfg sampleTopicBuilder).1.isPanicked = true ∧
    (handleOnlineMessage allOkEnv "abc"
      (mkStatusMsg (.obj [("state", .str "online"),
        ("dispatchers", .obj [("catalog", .num 3)])]))
      sampleCfg sampleTopicBuilder).1.isPanicked = true ∧
    (handleOnlineMessage allOkEnv "abc"
      (mkStatusMsg (.obj [("state", .str "online"),
        ("dispatchers", .obj [("catalog", .obj
          [("ApplicationType", .str "A"), ("SrcName", .str "N"),
           ("SourceRef", .num 1), ("SrcType", .str "T")])])]))
      sampleCfg sampleTopicBuilder).1.isPanicked = true := by
  refine ⟨rfl, rfl, rfl, rfl⟩

/-- C5: when the account resolver returns an error for an online message, the
run consists of the failed resolver call followed by exactly one publish on
the outgoing control topic of the client — so Register, the recorder and the
sources recorder are never invoked — and the published payload has
MessageType control, Version 1, command reconnect and the configured
invalid-handshake reconnect delay as its delay argument. -/
theorem C5_resolver_error_publishes_reconnect (env : CollabEnv) (cfg : Config)
    (topicBuilder : TopicBuilder) (clientID : String) (msg : ControlMessage)
    (e : String) (hres : env.MapClientIdToAccountId clientID = .error e) :
    handleOnlineMessage env clientID msg cfg topicBuilder =
      (HResult.err e,
       [Effect.resolveCall clientID,
        Effect.publish (topicBuilder.BuildOutgoingControlTopic clientID)
          cfg.MqttControlPublishQoS
          (buildReconnectMessage cfg.InvalidHandshakeReconnectDelay
            env.newMessageID env.now)]) ∧
    (buildReconnectMessage cfg.InvalidHandshakeReconnectDelay env.newMessageID
      env.now).MessageType = "control" ∧
    (buildReconnectMessage cfg.InvalidHandshakeReconnectDelay env.newMessageID
      env.now).Version = 1 ∧
    (buildReconnectMessage cfg.InvalidHandshakeReconnectDelay env.newMessageID
      env.now).Content.Command = "reconnect" ∧
    (buildReconnectMessage cfg.InvalidHandshakeReconnectDelay env.newMessageID
      env.now).Content.Arguments =
        [("delay", cfg.InvalidHandshakeReconnectDelay)] := by
  refine ⟨?_, rfl, rfl, rfl, rfl⟩
  simp [handleOnlineMessage, hres, sendReconnectMessageToClient]

/-- Witness for C5: concrete failing resolver, concrete client and config. -/
theorem C5_resolver_error_publishes_reconnect_witness :
    handleOnlineMessage resolveFailEnv "abc"
      (mkStatusMsg (.obj [("state", JValue.str "online")])) sampleCfg
      sampleTopicBuilder =
      (HResult.err "unknown client",
       [Effect.resolveCall "abc",
        Effect.publish (sampleTopicBuilder.BuildOutgoingControlTopic "abc")
          sampleCfg.MqttControlPublishQoS
          (buildReconnectMessage sampleCfg.InvalidHandshakeReconnectDelay
            resolveFailEnv.newMessageID resolveFailEnv.now)]) :=
  (C5_resolver_error_publishes_reconnect resolveFailEnv sampleCfg
    sampleTopicBuilder "abc" (mkStatusMsg (.obj [("state", JValue.str "online")]))
    "unknown client" rfl).1

/-- C8: a connection-status message whose state is offline makes exactly one
registrar Unregister call with that client id, invokes no other collaborator,
publishes nothing, and returns success. -/
theorem C8_offline_unregisters_once (env : CollabEnv) (cfg : Config)
    (topicBuilder : TopicBuilder) (clientID : String) (msg : ControlMessage)
    (payload : List (String × JValue)) (hc : msg.Content = .obj payload)
    (hstate : jlookup payload "state" = some (JValue.str "offline")) :
    handleConnectionStatusMessage env clientID msg cfg topicBuilder =
      (HResult.ok, [Effect.unregisterCall clientID]) := by
  simp [handleConnectionStatusMessage, hc, hstate, JValue.isStr,
    handleOfflineMessage]

/-- Witness for C8: the concrete offline payload. -/
theorem C8_offline_unregisters_once_witness :
    handleConnectionStatusMessage allOkEnv "abc"
      (mkStatusMsg (.obj [("state", JValue.str "offline")])) sampleCfg
      sampleTopicBuilder = (HResult.ok, [Effect.unregisterCall "abc"]) :=
  C8_offline_unregisters_once allOkEnv sampleCfg sampleTopicBuilder "abc"
    (mkStatusMsg (.obj [("state", JValue.str "offline")]))
    [("state", JValue.str "offline")] rfl rfl

/-- C9: a connection-status message whose state key is missing, or whose
state value is neither the string online nor the string offline, is dropped
with an error result and no effects at all: no publish and no registrar
operation. -/
theorem C9_invalid_state_dropped (env : CollabEnv) (cfg : Config)
    (topicBuilder : TopicBuilder) (clientID : String) (msg : ControlMessage)
    (payload : List (String × JValue)) (hc : msg.Content = .obj payload)
    (hstate : ∀ v, jlookup payload "state" = some v →
      v.isStr "online" = false ∧ v.isStr "offline" = false) :
    handleConnectionStatusMessage env clientID msg cfg topicBuilder =
      (HResult.err "Invalid connection state", []) := by
  cases hl : jlookup payload "state" with
  | none => simp [handleConnectionStatusMessage, hc, hl]
  | some v =>
    obtain ⟨h1, h2⟩ := hstate v hl
    simp [handleConnectionStatusMessage, hc, hl, h1, h2]

/-- The inventory gate evaluates to ok true exactly when the canonical facts
key is present and the dispatchers value is a map containing the playbook
worker key. -/
theorem gate_ok_true_iff (payload : List (String × JValue)) :
    shouldHostBeRegisteredWithInventory payload = .ok true ↔
      (jlookup payload canonicalFactsKey).isSome = true ∧
      ∃ dm, jlookup payload dispatchersKey = some (JValue.obj dm) ∧
        (jlookup dm playbookWorkerDispatcherKey).isSome = true := by
  unfold shouldHostBeRegisteredWithInventory doesHostHaveCanonicalFacts
    doesHostHavePlaybookWorker
  constructor
  · intro h
    split at h
    · cases hd : jlookup payload dispatchersKey with
      | none => rw [hd] at h; exact absurd h (by simp)
      | some d =>
        rw [hd] at h
        cases d with
        | obj dm =>
          refine ⟨by assumption, dm, rfl, ?_⟩
          injection h
        | str s => exact absurd h (by simp)
        | num n => exact absurd h (by simp)
        | bool b => exact absurd h (by simp)
        | null => exact absurd h (by simp)
        | arr a => exact absurd h (by simp)
    · exact absurd h (by simp)
  · rintro ⟨h1, dm, h2, h3⟩
    simp [h1, h2, h3]

/-- C4: along an online handshake in which the resolver and the registrar
succeed and the inventory gate evaluates without panicking, the
connected-client recorder is called exactly once when the gate holds and not
at all otherwise; the gate holds exactly when the payload has the
canonical_facts key and its dispatchers map has the rhc-worker-playbook key;
and when the gate fails, the run still proceeds into dispatcher processing,
appending exactly the sources-enrollment effects. -/
theorem C4_inventory_gate (env : CollabEnv) (cfg : Config)
    (topicBuilder : TopicBuilder) (clientID identity account : String)
    (msg : ControlMessage) (payload : List (String × JValue)) (g : Bool)
    (hc : msg.Content = .obj payload)
    (hres : env.MapClientIdToAccountId clientID = .ok (identity, account))
    (hreg : env.Register (payloadRhcClient clientID account payload) = none)
    (hgate : shouldHostBeRegisteredWithInventory payload = .ok g) :
    countEffects (handleOnlineMessage env clientID msg cfg topicBuilder).2
      Effect.isRecordCall = (if g then 1 else 0) ∧
    (shouldHostBeRegisteredWithInventory payload = .ok true ↔
      (jlookup payload canonicalFactsKey).isSome = true ∧
      ∃ dm, jlookup payload dispatchersKey = some (JValue.obj dm) ∧
        (jlookup dm playbookWorkerDispatcherKey).isSome = true) ∧
    (g = false →
      (handleOnlineMessage env clientID msg cfg topicBuilder).2 =
        [Effect.resolveCall clientID,
         Effect.registerCall (payloadRhcClient clientID account payload)] ++
        (processDispatchers env identity account clientID payload).2) := by
  simp only [payloadRhcClient] at hreg ⊢
  refine ⟨?_, gate_ok_true_iff payload, ?_⟩
  · rcases hpd : processDispatchers env identity account clientID payload
      with ⟨pd, pdEffs⟩
    have h0 := (processDispatchers_only_sources env identity account clientID
      payload).2.2.1
    rw [hpd] at h0
    simp only [countEffects] at h0 ⊢
    cases g with
    | true =>
      cases hrec : env.RecordConnectedClient identity
          (payloadRhcClient clientID account payload) with
      | none =>
        simp only [payloadRhcClient] at hrec
        cases pd with
        | ok u =>
          simp [handleOnlineMessage, hres, hc, hreg, hgate, hrec, hpd,
            List.filter_append, Effect.isRecordCall, h0]
        | panicked m =>
          simp [handleOnlineMessage, hres, hc, hreg, hgate, hrec, hpd,
            List.filter_append, Effect.isRecordCall, h0]
      | some e =>
        simp only [payloadRhcClient] at hrec
        simp [handleOnlineMessage, hres, hc, hreg, hgate, hrec,
          sendReconnectMessageToClient, Effect.isRecordCall]
    | false =>
      cases pd with
      | ok u =>
        simp [handleOnlineMessage, hres, hc, hreg, hgate, hpd,
          List.filter_append, Effect.isRecordCall, h0]
      | panicked m =>
        simp [handleOnlineMessage, hres, hc, hreg, hgate, hpd,
          List.filter_append, Effect.isRecordCall, h0]
  · intro hg
    subst hg
    rcases hpd : processDispatchers env identity account clientID payload
      with ⟨pd, pdEffs⟩
    cases pd with
    | ok u => simp [handleOnlineMessage, hres, hc, hreg, hgate, hpd]
    | panicked m => simp [handleOnlineMessage, hres, hc, hreg, hgate, hpd]

/-- Witness for C4: the concrete inventory payload, all-success environment,
gate true. -/
theorem C4_inventory_gate_witness :
    countEffects (handleOnlineMessage allOkEnv "abc"
      (mkStatusMsg (.obj inventoryOnlinePayload)) sampleCfg
      sampleTopicBuilder).2 Effect.isRecordCall = (if true then 1 else 0) :=
  (C4_inventory_gate allOkEnv sampleCfg sampleTopicBuilder "abc" "identity-1"
    "account-1" (mkStatusMsg (.obj inventoryOnlinePayload))
    inventoryOnlinePayload true rfl rfl rfl rfl).1

/-- C7: in an online handshake in which the resolver and the registrar
succeed, the inventory step succeeds whenever the gate holds, dispatcher
processing does not panic, and the sources recorder fails on every call, the
handshake still completes: the handler returns success, publishes no
reconnect command, and never unregisters the client. -/
theorem C7_sources_error_handshake_ok (env : CollabEnv) (cfg : Config)
    (topicBuilder : TopicBuilder) (clientID identity account : String)
    (msg : ControlMessage) (payload : List (String × JValue)) (g : Bool)
    (e : String) (hc : msg.Content = .obj payload)
    (hres : env.MapClientIdToAccountId clientID = .ok (identity, account))
    (hreg : env.Register (payloadRhcClient clientID account payload) = none)
    (hgate : shouldHostBeRegisteredWithInventory payload = .ok g)
    (hrec : g = true → env.RecordConnectedClient identity
      (payloadRhcClient clientID account payload) = none)
    (hsrc : ∀ i a c r n t ap,
      env.RegisterWithSources i a c r n t ap = some e)
    (hpd : (processDispatchers env identity account clientID payload).1 =
      .ok ()) :
    (handleOnlineMessage env clientID msg cfg topicBuilder).1 = HResult.ok ∧
    countEffects (handleOnlineMessage env clientID msg cfg topicBuilder).2
      Effect.isPublish = 0 ∧
    countEffects (handleOnlineMessage env clientID msg cfg topicBuilder).2
      Effect.isUnregisterCall = 0 := by
  simp only [payloadRhcClient] at hreg hrec
  rcases hpd2 : processDispatchers env identity account clientID payload
    with ⟨pd, pdEffs⟩
  rw [hpd2] at hpd
  simp only at hpd
  subst hpd
  have hp := (processDispatchers_only_sources env identity account clientID
    payload).2.2.2
  have hu := (processDispatchers_only_sources env identity account clientID
    payload).2.1
  rw [hpd2] at hp hu
  simp only [countEffects] at hp hu ⊢
  cases g with
  | true =>
    simp [handleOnlineMessage, hres, hc, hreg, hgate, hrec rfl, hpd2,
      List.filter_append, Effect.isPublish, Effect.isUnregisterCall, hp, hu]
  | false =>
    simp [handleOnlineMessage, hres, hc, hreg, hgate, hpd2,
      List.filter_append, Effect.isPublish, Effect.isUnregisterCall, hp, hu]

/-- Witness for C7: the sources recorder fails on the concrete catalog
payload (code key spelling) and the handshake still returns success. -/
theorem C7_sources_error_handshake_ok_witness :
    (handleOnlineMessage sourcesFailEnv "abc"
      (mkStatusMsg (.obj codeCatalogNoFactsPayload)) sampleCfg
      sampleTopicBuilder).1 = HResult.ok :=
  (C7_sources_error_handshake_ok sourcesFailEnv sampleCfg sampleTopicBuilder
    "abc" "identity-1" "account-1"
    (mkStatusMsg (.obj codeCatalogNoFactsPayload)) codeCatalogNoFactsPayload
    false "sources api error" rfl rfl rfl rfl
    (by intro hcontra; cases hcontra) (fun _ _ _ _ _ _ _ => rfl)
    rfl).1

/-- C1 counterexample: with a payload that passes the inventory gate and an
environment in which the inventory recorder fails, a single online handshake
both calls Register exactly once and publishes a reconnect command exactly
once, refuting the mutual exclusivity. -/
theorem C1_register_and_reconnect_both_occur :
    countEffects (handleOnlineMessage recordFailEnv "abc"
      (mkStatusMsg (.obj inventoryOnlinePayload)) sampleCfg
      sampleTopicBuilder).2 Effect.isRegisterCall = 1 ∧
    countEffects (handleOnlineMessage recordFailEnv "abc"
      (mkStatusMsg (.obj inventoryOnlinePayload)) sampleCfg
      sampleTopicBuilder).2 Effect.isPublish = 1 := by decide

/-- C1 (amended): in every online handshake that does not end in a panic,
Register is called at most once, a reconnect command is published at most
once, and at least one of the two occurs; the two are not mutually
exclusive — both occur when registration or inventory recording fails after
Register has been invoked. -/
theorem C1_register_or_reconnect (env : CollabEnv) (cfg : Config)
    (topicBuilder : TopicBuilder) (clientID : String) (msg : ControlMessage)
    (h : (handleOnlineMessage env clientID msg cfg topicBuilder).1.isPanicked =
      false) :
    countEffects (handleOnlineMessage env clientID msg cfg topicBuilder).2
      Effect.isRegisterCall ≤ 1 ∧
    countEffects (handleOnlineMessage env clientID msg cfg topicBuilder).2
      Effect.isPublish ≤ 1 ∧
    1 ≤ countEffects (handleOnlineMessage env clientID msg cfg topicBuilder).2
      Effect.isRegisterCall +
      countEffects (handleOnlineMessage env clientID msg cfg topicBuilder).2
        Effect.isPublish := by
  rcases hres : env.MapClientIdToAccountId clientID with e | ⟨identity, account⟩
  · simp [handleOnlineMessage, hres, countEffects, Effect.isRegisterCall,
      Effect.isPublish, sendReconnectMessageToClient]
  · obtain ⟨MT, MID, V, S, content⟩ := msg
    cases content with
    | obj payload =>
      rcases hregr : env.Register
          (payloadRhcClient clientID account payload) with _ | e2
      all_goals simp only [payloadRhcClient] at hregr
      · rcases hg : shouldHostBeRegisteredWithInventory payload with g | m
        · rcases hpd : processDispatchers env identity account clientID payload
            with ⟨pd, pdEffs⟩
          have h0 := (processDispatchers_only_sources env identity account
            clientID payload).1
          have h1 := (processDispatchers_only_sources env identity account
            clientID payload).2.2.2
          rw [hpd] at h0 h1
          simp only [countEffects] at h0 h1
          cases g with
          | true =>
            rcases hrec : env.RecordConnectedClient identity
                (payloadRhcClient clientID account payload) with _ | e3
            all_goals simp only [payloadRhcClient] at hrec
            · cases pd with
              | ok u =>
                simp [handleOnlineMessage, hres, hregr, hg, hrec, hpd,
                  countEffects, List.filter_append, Effect.isRegisterCall,
                  Effect.isPublish, h0, h1]
              | panicked m =>
                simp [handleOnlineMessage, hres, hregr, hg, hrec, hpd,
                  HResult.isPanicked] at h
            · simp [handleOnlineMessage, hres, hregr, hg, hrec,
                countEffects, Effect.isRegisterCall, Effect.isPublish,
                sendReconnectMessageToClient]
          | false =>
            cases pd with
            | ok u =>
              simp [handleOnlineMessage, hres, hregr, hg, hpd,
                countEffects, List.filter_append, Effect.isRegisterCall,
                Effect.isPublish, h0, h1]
            | panicked m =>
              simp [handleOnlineMessage, hres, hregr, hg, hpd,
                HResult.isPanicked] at h
        · simp [handleOnlineMessage, hres, hregr, hg, HResult.isPanicked] at h
      · simp [handleOnlineMessage, hres, hregr, countEffects,
          Effect.isRegisterCall, Effect.isPublish,
          sendReconnectMessageToClient]
    | str s => simp [handleOnlineMessage, hres, HResult.isPanicked] at h
    | num n => simp [handleOnlineMessage, hres, HResult.isPanicked] at h
    | bool b => simp [handleOnlineMessage, hres, HResult.isPanicked] at h
    | null => simp [handleOnlineMessage, hres, HResult.isPanicked] at h
    | arr a => simp [handleOnlineMessage, hres, HResult.isPanicked] at h

/-- Witness for C1 (amended): the all-success environment on a minimal online
payload registers once and publishes nothing. -/
theorem C1_register_or_reconnect_witness :
    countEffects (handleOnlineMessage allOkEnv "abc"
      (mkStatusMsg (.obj [("state", JValue.str "online")])) sampleCfg
      sampleTopicBuilder).2 Effect.isRegisterCall ≤ 1 ∧
    countEffects (handleOnlineMessage allOkEnv "abc"
      (mkStatusMsg (.obj [("state", JValue.str "online")])) sampleCfg
      sampleTopicBuilder).2 Effect.isPublish ≤ 1 ∧
    1 ≤ countEffects (handleOnlineMessage allOkEnv "abc"
      (mkStatusMsg (.obj [("state", JValue.str "online")])) sampleCfg
      sampleTopicBuilder).2 Effect.isRegisterCall +
      countEffects (handleOnlineMessage allOkEnv "abc"
        (mkStatusMsg (.obj [("state", JValue.str "online")])) sampleCfg
        sampleTopicBuilder).2 Effect.isPublish :=
  C1_register_or_reconnect allOkEnv sampleCfg sampleTopicBuilder "abc"
    (mkStatusMsg (.obj [("state", JValue.str "online")])) (by decide)

/-- Witness for C9: a state value the handler does not recognize. -/
theorem C9_invalid_state_dropped_witness :
    handleConnectionStatusMessage allOkEnv "abc"
      (mkStatusMsg (.obj [("state", JValue.str "rebooting")])) sampleCfg
      sampleTopicBuilder = (HResult.err "Invalid connection state", []) :=
  C9_invalid_state_dropped allOkEnv sampleCfg sampleTopicBuilder "abc"
    (mkStatusMsg (.obj [("state", JValue.str "rebooting")]))
    [("state", JValue.str "rebooting")] rfl
    (by intro v hv; simp [jlookup] at hv; subst hv; constructor <;> rfl)

end CloudConnector
